import Mathlib

/-
Verification of the pepper backend's core components against its
specification: the encrypted in-memory token store (`app/token_storage.py`)
and the Microsoft Graph request executor / operation library
(`app/graph_client.py`).

The Python code is shallowly embedded: dicts become association lists
(Python dict keys are unique, so first-match lookup, replace-in-place
insertion and filter-based removal agree with dict semantics), ambient
time (`datetime.utcnow()`) becomes an explicit parameter, HTTP traffic
becomes an environment function from attempt number to response, and
raised exceptions become explicit error values.
-/

namespace Pepper

/-- JSON-like values: the Python str/int/bool/None/list/dict values that flow
through `json.dumps`/`json.loads` in `token_storage.py` and the request
payloads built in `graph_client.py`. -/
inductive JVal where
  | str (s : String)
  | num (n : Int)
  | bool (b : Bool)
  | null
  | arr (elems : List JVal)
  | obj (fields : List (String × JVal))

/-- First-match lookup in an association list; models Python `d.get(k)` /
`d[k]` (dict keys are unique, so first-match lookup is dict lookup). -/
def dlookup {α : Type} : List (String × α) → String → Option α
  | [], _ => none
  | (k2, v) :: rest, k => if k2 = k then some v else dlookup rest k

/-- Replace-or-append insertion; models Python `d[k] = v` (replaces the value
in place when the key exists, otherwise appends, preserving dict order). -/
def dinsert {α : Type} (k : String) (v : α) : List (String × α) → List (String × α)
  | [] => [(k, v)]
  | (k2, v2) :: rest => if k2 = k then (k, v) :: rest else (k2, v2) :: dinsert k v rest

/-- Key removal; models Python `d.pop(k)` / `del d[k]` (dict keys are unique,
so filtering out every pair with the key agrees with dict removal). -/
def derase {α : Type} (k : String) (l : List (String × α)) : List (String × α) :=
  l.filter (fun p => decide (p.1 ≠ k))

/-- A Python token dict (string keys, JSON values). -/
abbrev TokenDict := List (String × JVal)

/-- Model of `datetime.utcnow().isoformat()`: model time as an abstract count
of time units (a natural number) and its ISO rendering as the decimal string
of that count — an injective rendering with a computable inverse, which is all
the store relies on. -/
def isoformat (t : Nat) : String :=
  if t = 0 then "0" else String.mk ((Nat.digits 10 t).reverse.map Nat.digitChar)

/-- Digit value of a decimal digit character. -/
def charVal (c : Char) : Nat := c.toNat - 48

/-- Model of `datetime.fromisoformat`: parses the rendering produced by
`isoformat`; `none` models the `ValueError` raised on a malformed string
(in particular on the empty string). -/
def fromisoformat (s : String) : Option Nat :=
  if s.data = [] then none
  else if s.data.all Char.isDigit then
    some (Nat.ofDigits 10 ((s.data.map charVal).reverse))
  else none

/-- A Fernet ciphertext held in the store. `enc d` models
`cipher.encrypt(json.dumps(d).encode())` for a token dict `d` (authenticated
decryption followed by `json.loads` recovers exactly `d`); `corrupt` models
any byte string on which `cipher.decrypt` or `json.loads` raises. -/
inductive Ciphertext where
  | enc (d : TokenDict)
  | corrupt

/-- Model of `self.cipher.decrypt` followed by `json.loads`: succeeds exactly
on genuine ciphertexts (Fernet is authenticated, so tampered or corrupted
bytes make `decrypt` raise, modelled by `none`). -/
def decryptLoads : Ciphertext → Option TokenDict
  | .enc d => some d
  | .corrupt => none

/-- The two maps owned by `TokenStorage.__init__`: `_tokens` (user id to
encrypted token record) and `_verifiers` (OAuth state to PKCE verifier). -/
structure TokenStorage where
  tokens : List (String × Ciphertext)
  verifiers : List (String × String)

/-- `TokenStorage.store_code_verifier`: `self._verifiers[state] = code_verifier`. -/
def TokenStorage.store_code_verifier (st : TokenStorage) (state code_verifier : String) :
    TokenStorage :=
  { st with verifiers := dinsert state code_verifier st.verifiers }

/-- `TokenStorage.get_code_verifier`: `self._verifiers.pop(state, None)` —
returns the stored verifier (or `none`) and the storage with the entry
removed. -/
def TokenStorage.get_code_verifier (st : TokenStorage) (state : String) :
    Option String × TokenStorage :=
  (dlookup st.verifiers state, { st with verifiers := derase state st.verifiers })

/-- `TokenStorage.store_tokens`. The Python code first mutates the caller's
`tokens` dict in place (`tokens["stored_at"] = datetime.utcnow().isoformat()`)
and then serializes, encrypts and stores that same dict under `user_id`.
`now` is the ambient `datetime.utcnow()` made explicit. The second component
of the result models the caller's dict object as it stands after the call
(reflecting the in-place mutation). -/
def TokenStorage.store_tokens (st : TokenStorage) (user_id : String) (tokens : TokenDict)
    (now : Nat) : TokenStorage × TokenDict :=
  let stamped := dinsert "stored_at" (JVal.str (isoformat now)) tokens
  ({ st with tokens := dinsert user_id (Ciphertext.enc stamped) st.tokens }, stamped)

/-- `TokenStorage.get_tokens`: looks up the ciphertext; on decryption or
deserialization failure removes the corrupted entry and returns `none`
(the `except` clause swallows the exception), otherwise returns the decoded
dict. Returns the possibly-updated storage alongside the result. -/
def TokenStorage.get_tokens (st : TokenStorage) (user_id : String) :
    Option TokenDict × TokenStorage :=
  match dlookup st.tokens user_id with
  | none => (none, st)
  | some c =>
    match decryptLoads c with
    | some d => (some d, st)
    | none => (none, { st with tokens := derase user_id st.tokens })

/-- `TokenStorage.delete_tokens`: removes the record, reporting whether one
existed. -/
def TokenStorage.delete_tokens (st : TokenStorage) (user_id : String) :
    Bool × TokenStorage :=
  match dlookup st.tokens user_id with
  | some _ => (true, { st with tokens := derase user_id st.tokens })
  | none => (false, st)

/-- `TokenStorage.is_token_expired` evaluated with the ambient
`datetime.utcnow()` made explicit as `now`. Mirrors the source line by line:
`get_tokens` first (which may evict a corrupt entry); absent record means
expired; `datetime.fromisoformat(tokens.get("stored_at", ""))` (a raised
`ValueError`/`TypeError` is modelled by the `none` result);
`expires_in = tokens.get("expires_in", 0)`; expired iff
`utcnow() >= stored_at + timedelta(seconds=expires_in)`. -/
def TokenStorage.is_token_expired (st : TokenStorage) (user_id : String) (now : Nat) :
    Option Bool × TokenStorage :=
  let r := st.get_tokens user_id
  match r.1 with
  | none => (some true, r.2)
  | some tokens =>
    let storedAt? : Option Nat :=
      match dlookup tokens "stored_at" with
      | some (JVal.str s) => fromisoformat s
      | none => fromisoformat ""
      | some _ => none
    match storedAt? with
    | none => (none, r.2)
    | some storedAt =>
      match (match dlookup tokens "expires_in" with
             | some (JVal.num n) => some n
             | none => some (0 : Int)
             | some _ => none) with
      | none => (none, r.2)
      | some expires_in =>
        (some (decide ((storedAt : Int) + expires_in ≤ (now : Int))), r.2)

/-- An HTTP response as seen by `GraphClient._make_request`: status code,
headers, raw text, and the result of `response.json()` (`none` models a body
on which JSON decoding raises). -/
structure Response where
  status : Nat
  headers : List (String × String)
  text : String
  json : Option JVal

/-- Case-folded character list of a string, for case-insensitive
comparison. -/
def lowerChars (s : String) : List Char := s.data.map Char.toLower

/-- Header lookup; httpx header access is case-insensitive. -/
def headerGet (headers : List (String × String)) (key : String) : Option String :=
  (headers.find? (fun p => lowerChars p.1 == lowerChars key)).map Prod.snd

/-- Decimal value of a list of digit characters. -/
def decDigitsVal (cs : List Char) : Nat :=
  cs.foldl (fun acc c => acc * 10 + charVal c) 0

/-- Model of Python `int(s)` on a string: parses an optionally negated run
of decimal digits; `none` models the raised `ValueError` on anything else. -/
def parsePyInt (s : String) : Option Int :=
  match s.data with
  | '-' :: cs =>
    if cs.isEmpty || !cs.all Char.isDigit then none
    else some (-(decDigitsVal cs : Int))
  | cs =>
    if cs.isEmpty || !cs.all Char.isDigit then none
    else some ((decDigitsVal cs : Int))

/-- The exceptions `_make_request` can raise, one constructor per raise site:
`tokenExpired` (401), `rateLimited` (429, carrying the advertised or default
retry-after), `serverError` (5xx with retries exhausted, line 129),
`apiError` (other 4xx, line 138), `valueError` (an unparsable Retry-After
header makes `int(...)` raise), `jsonDecodeError` (a 2xx body on which
`response.json()` raises). -/
inductive GraphError where
  | tokenExpired
  | rateLimited (retry_after : Int)
  | serverError (text : String)
  | apiError (status : Nat) (msg : String)
  | valueError
  | jsonDecodeError

/-- The error message extraction of lines 132-137: prefer the provider's
structured `error.message` when the body parses to an object holding one,
else fall back to the raw response text (the bare `except: pass`). -/
def parseErrorMsg (r : Response) : String :=
  match r.json with
  | some (JVal.obj fields) =>
    match dlookup fields "error" with
    | some (JVal.obj efields) =>
      match dlookup efields "message" with
      | some (JVal.str m) => m
      | _ => r.text
    | _ => r.text
  | _ => r.text

namespace GraphClient

def BASE_URL : String := "https://graph.microsoft.com/v1.0"

def MAX_RETRIES : Nat := 3

def INITIAL_RETRY_DELAY : Nat := 1

/-- `GraphClient._make_request`, with the network made explicit: `env i` is
the HTTP response the server returns to the request issued with
`retry_count = i` (retries are the only way `retry_count` advances, so it
numbers the attempts). The result is the returned JSON or raised error,
together with the list of back-off sleeps performed (`time.sleep(delay)`)
and the total number of HTTP requests issued. -/
def make_request (env : Nat → Response) (retry_count : Nat) :
    Except GraphError JVal × List Nat × Nat :=
  if (env retry_count).status = 401 then
    (Except.error GraphError.tokenExpired, [], 1)
  else if (env retry_count).status = 429 then
    (match headerGet (env retry_count).headers "Retry-After" with
     | none => Except.error (GraphError.rateLimited 60)
     | some s =>
       match parsePyInt s with
       | some n => Except.error (GraphError.rateLimited n)
       | none => Except.error GraphError.valueError, [], 1)
  else if 500 ≤ (env retry_count).status then
    if h : retry_count < MAX_RETRIES then
      ((make_request env (retry_count + 1)).1,
       INITIAL_RETRY_DELAY * 2 ^ retry_count :: (make_request env (retry_count + 1)).2.1,
       (make_request env (retry_count + 1)).2.2 + 1)
    else
      (Except.error (GraphError.serverError (env retry_count).text), [], 1)
  else if 400 ≤ (env retry_count).status then
    (Except.error (GraphError.apiError (env retry_count).status
       (parseErrorMsg (env retry_count))), [], 1)
  else if (env retry_count).status = 204 then
    (Except.ok (JVal.obj []), [], 1)
  else
    match (env retry_count).json with
    | some v => (Except.ok v, [], 1)
    | none => (Except.error GraphError.jsonDecodeError, [], 1)
termination_by MAX_RETRIES - retry_count
decreasing_by all_goals omega

end GraphClient

/-- The `EmailImportance` enum. -/
inductive EmailImportance where
  | low
  | normal
  | high

/-- `EmailImportance.value`, the wire string of each enum member. -/
def EmailImportance.value : EmailImportance → String
  | .low => "low"
  | .normal => "normal"
  | .high => "high"

/-- Python truthiness of an `Optional[str]`: `None` and the empty string are
falsy. -/
def truthyStr : Option String → Bool
  | none => false
  | some s => decide (s ≠ "")

/-- Python truthiness of an `Optional[list]`: `None` and the empty list are
falsy. -/
def truthyList {α : Type} : Option (List α) → Bool
  | none => false
  | some l => !l.isEmpty

/-- The recipient shape `{"emailAddress": {"address": addr}}`. -/
def recipient (addr : String) : JVal :=
  JVal.obj [("emailAddress", JVal.obj [("address", JVal.str addr)])]

/-- The message object built identically at `write_email` lines 192-207 and
`send_email` lines 260-275: subject, importance, body (content type and
content), recipient list, and a CC list only when `cc` is truthy (appended
last, after the dict literal). -/
def buildMessage (to_ : List String) (subject body : String) (cc : Option (List String))
    (importance : EmailImportance) (body_type : String) : JVal :=
  let base := [("subject", JVal.str subject),
               ("importance", JVal.str importance.value),
               ("body", JVal.obj [("contentType", JVal.str body_type),
                                  ("content", JVal.str body)]),
               ("toRecipients", JVal.arr (to_.map recipient))]
  if truthyList cc then
    JVal.obj (base ++ [("ccRecipients", JVal.arr ((cc.getD []).map recipient))])
  else
    JVal.obj base

/-- What `send_email` does before any network traffic: either it reaches a
single `_make_request("POST", endpoint, data)` call (constructor `request`,
with `none` data when no body is passed), or it raises
`ValueError("to, subject, and body are required ...")` first (constructor
`valueError` — no request is constructed in that case). -/
inductive SendEmailResult where
  | request (endpoint : String) (data : Option JVal)
  | valueError

/-- `GraphClient.send_email` (lines 249-279): a truthy `draft_id` sends that
draft via its send endpoint and ignores every other argument; otherwise
falsy `to`, `subject` or `body` raises `ValueError` before any request, and
when all three are truthy one compose-and-send request is issued to
`/me/sendMail` with the message nested under a `"message"` key. -/
def GraphClient.send_email (draft_id : Option String) (to_ : Option (List String))
    (subject body : Option String) (cc : Option (List String))
    (importance : EmailImportance) (body_type : String) : SendEmailResult :=
  if truthyStr draft_id then
    SendEmailResult.request ("/me/messages/" ++ draft_id.getD "" ++ "/send") none
  else if !truthyList to_ || !truthyStr subject || !truthyStr body then
    SendEmailResult.valueError
  else
    SendEmailResult.request "/me/sendMail"
      (some (JVal.obj [("message",
        buildMessage (to_.getD []) (subject.getD "") (body.getD "") cc importance body_type)]))

/-- A Python `datetime` value as consumed by `search_emails` (only the
components `strftime("%Y-%m-%dT%H:%M:%SZ")` reads). -/
structure PyDatetime where
  year : Nat
  month : Nat
  day : Nat
  hour : Nat
  minute : Nat
  second : Nat

/-- Zero-padding to two digits, as `strftime` does for %m %d %H %M %S. -/
def pad2 (n : Nat) : String :=
  if n < 10 then "0" ++ toString n else toString n

/-- Zero-padding to four digits, as `strftime` does for %Y. -/
def pad4 (n : Nat) : String :=
  if n < 10 then "000" ++ toString n
  else if n < 100 then "00" ++ toString n
  else if n < 1000 then "0" ++ toString n
  else toString n

/-- `from_date.strftime("%Y-%m-%dT%H:%M:%SZ")`: an ISO-8601 UTC timestamp. -/
def strftimeUTC (d : PyDatetime) : String :=
  pad4 d.year ++ "-" ++ pad2 d.month ++ "-" ++ pad2 d.day ++ "T" ++
    pad2 d.hour ++ ":" ++ pad2 d.minute ++ ":" ++ pad2 d.second ++ "Z"

/-- `GraphClient.search_emails` (lines 309-331) up to the network call: the
endpoint and the query-parameter dict passed to `_make_request`. `$top` is
capped at 1000, `$orderby` is fixed, a truthy `from_date` (datetimes are
always truthy, so: a supplied one) contributes a `receivedDateTime ge`
lower-bound filter, and a truthy `query` is wrapped in double quotes as
`$search`. -/
def GraphClient.search_emails (query : Option String) (folder : String) (top : Int)
    (from_date : Option PyDatetime) : String × List (String × JVal) :=
  let endpoint := "/me/mailFolders/" ++ folder ++ "/messages"
  let params := [("$top", JVal.num (min top 1000)),
                 ("$orderby", JVal.str "receivedDateTime DESC")]
  let filters : List String :=
    match from_date with
    | some d => ["receivedDateTime ge " ++ strftimeUTC d]
    | none => []
  let params := if filters.isEmpty then params
                else dinsert "$filter" (JVal.str (String.intercalate " and " filters)) params
  let params := if truthyStr query then
                  dinsert "$search" (JVal.str ("\"" ++ query.getD "" ++ "\"")) params
                else params
  (endpoint, params)

/-- The empty storage, as built by `TokenStorage.__init__`. -/
def emptyStorage : TokenStorage := { tokens := [], verifiers := [] }

/-- A storage holding one corrupted ciphertext, for concrete instantiations. -/
def corruptStorage : TokenStorage :=
  { tokens := [("bob", Ciphertext.corrupt)], verifiers := [] }

/-- A sample token dict as returned by the identity provider, for concrete
instantiations. -/
def sampleTokens : TokenDict :=
  [("access_token", JVal.str "tok"), ("expires_in", JVal.num 3600)]

/-- A sample datetime, for concrete instantiations. -/
def dateEx : PyDatetime := { year := 2024, month := 1, day := 15, hour := 9, minute := 30, second := 0 }

/-- A successful JSON response, for concrete instantiations. -/
def respOK : Response :=
  { status := 200, headers := [], text := "ok",
    json := some (JVal.obj [("id", JVal.str "m1")]) }

/-- A 503 server-error response, for concrete instantiations. -/
def resp503 : Response :=
  { status := 503, headers := [], text := "Service Unavailable", json := none }

/-- A 401 response, for concrete instantiations. -/
def resp401 : Response :=
  { status := 401, headers := [], text := "unauthorized", json := none }

/-- A 429 response advertising `Retry-After: 120`, for concrete
instantiations. -/
def resp429 : Response :=
  { status := 429, headers := [("Retry-After", "120")], text := "slow down",
    json := none }

/-- A 429 response without any `Retry-After` header, for concrete
instantiations. -/
def resp429bare : Response :=
  { status := 429, headers := [("Content-Type", "text/plain")], text := "slow down",
    json := none }

/-- A network where the first two attempts hit a 503 and the third succeeds. -/
def envRecover : Nat → Response := fun i => if i < 2 then resp503 else respOK

/-- A network where every attempt hits a 503. -/
def envDown : Nat → Response := fun _ => resp503

/-- A network that always answers 401. -/
def env401 : Nat → Response := fun _ => resp401

/-- A network that always answers 429 with a Retry-After header. -/
def env429 : Nat → Response := fun _ => resp429

/-- A network that always answers 429 without a Retry-After header. -/
def env429bare : Nat → Response := fun _ => resp429bare

/-! Association-list facts: the dict operations interact as Python dict
lookup, assignment and `pop` do. -/

theorem dlookup_dinsert_self {α : Type} (k : String) (v : α) (l : List (String × α)) :
    dlookup (dinsert k v l) k = some v := by
  induction l with
  | nil => simp [dinsert, dlookup]
  | cons p rest ih =>
    obtain ⟨k2, v2⟩ := p
    by_cases h : k2 = k
    · simp [dinsert, h, dlookup]
    · simp [dinsert, h, dlookup, ih]

theorem dlookup_dinsert_ne {α : Type} (k k2 : String) (v : α) (l : List (String × α))
    (h : k2 ≠ k) : dlookup (dinsert k v l) k2 = dlookup l k2 := by
  induction l with
  | nil => simp [dinsert, dlookup, Ne.symm h]
  | cons p rest ih =>
    obtain ⟨k3, v3⟩ := p
    by_cases h3 : k3 = k
    · subst h3
      simp [dinsert, dlookup, Ne.symm h]
    · simp [dinsert, h3, dlookup, ih]

theorem dlookup_derase_self {α : Type} (k : String) (l : List (String × α)) :
    dlookup (derase k l) k = none := by
  induction l with
  | nil => simp [derase, dlookup]
  | cons p rest ih =>
    obtain ⟨k2, v2⟩ := p
    by_cases h : k2 = k
    · simpa [derase, h] using ih
    · simpa [derase, h, dlookup] using ih

theorem dinsert_eq_append {α : Type} (k : String) (v : α) (l : List (String × α))
    (h : dlookup l k = none) : dinsert k v l = l ++ [(k, v)] := by
  induction l with
  | nil => simp [dinsert]
  | cons p rest ih =>
    obtain ⟨k2, v2⟩ := p
    by_cases hk : k2 = k
    · simp [dlookup, hk] at h
    · simp [dlookup, hk] at h
      simp [dinsert, hk, ih h]

/-! The timestamp rendering round-trips: `fromisoformat` recovers the time
`isoformat` rendered, as `datetime.fromisoformat` does for
`datetime.isoformat` output. -/

theorem digitChar_isDigit : ∀ d, d < 10 → (Nat.digitChar d).isDigit = true := by decide

theorem charVal_digitChar : ∀ d, d < 10 → charVal (Nat.digitChar d) = d := by decide

theorem fromisoformat_isoformat (t : Nat) : fromisoformat (isoformat t) = some t := by
  by_cases h0 : t = 0
  · subst h0; rfl
  · have hne : Nat.digits 10 t ≠ [] := by
      simpa [Nat.digits_ne_nil_iff_ne_zero] using h0
    have hdata : (isoformat t).data = (Nat.digits 10 t).reverse.map Nat.digitChar := by
      simp [isoformat, h0]
    have hnil : (isoformat t).data ≠ [] := by
      simp [hdata, hne]
    have hlt : ∀ d ∈ Nat.digits 10 t, d < 10 := fun d hd =>
      Nat.digits_lt_base (by norm_num) hd
    have hall : (isoformat t).data.all Char.isDigit = true := by
      rw [hdata, List.all_eq_true]
      intro c hc
      obtain ⟨d, hd, rfl⟩ := List.mem_map.mp hc
      exact digitChar_isDigit d (hlt d (List.mem_reverse.mp hd))
    rw [fromisoformat, if_neg hnil, if_pos hall, hdata, List.map_map]
    have hmap : (Nat.digits 10 t).reverse.map (charVal ∘ Nat.digitChar)
        = (Nat.digits 10 t).reverse := by
      rw [List.map_congr_left, List.map_id]
      intro d hd
      exact charVal_digitChar d (hlt d (List.mem_reverse.mp hd))
    rw [hmap, List.reverse_reverse, Nat.ofDigits_digits]

/-! One-step characterizations of `make_request`, one per branch of the
status-code classification. -/

namespace GraphClient

theorem make_request_401 (env : Nat → Response) (rc : Nat)
    (h : (env rc).status = 401) :
    make_request env rc = (Except.error GraphError.tokenExpired, [], 1) := by
  unfold make_request
  rw [if_pos h]

theorem make_request_429 (env : Nat → Response) (rc : Nat)
    (h : (env rc).status = 429) :
    make_request env rc =
      (match headerGet (env rc).headers "Retry-After" with
       | none => Except.error (GraphError.rateLimited 60)
       | some s =>
         match parsePyInt s with
         | some n => Except.error (GraphError.rateLimited n)
         | none => Except.error GraphError.valueError, [], 1) := by
  unfold make_request
  rw [if_neg (by omega), if_pos h]

theorem make_request_5xx_retry (env : Nat → Response) (rc : Nat)
    (h5 : 500 ≤ (env rc).status) (h : rc < MAX_RETRIES) :
    make_request env rc =
      ((make_request env (rc + 1)).1,
       INITIAL_RETRY_DELAY * 2 ^ rc :: (make_request env (rc + 1)).2.1,
       (make_request env (rc + 1)).2.2 + 1) := by
  rw [make_request.eq_def]
  rw [if_neg (by omega), if_neg (by omega), if_pos h5, dif_pos h]

theorem make_request_5xx_exhausted (env : Nat → Response) (rc : Nat)
    (h5 : 500 ≤ (env rc).status) (h : ¬ rc < MAX_RETRIES) :
    make_request env rc = (Except.error (GraphError.serverError (env rc).text), [], 1) := by
  unfold make_request
  rw [if_neg (by omega), if_neg (by omega), if_pos h5, dif_neg h]

theorem make_request_success (env : Nat → Response) (rc : Nat) (v : JVal)
    (h2 : 200 ≤ (env rc).status) (h4 : (env rc).status < 400)
    (h204 : (env rc).status ≠ 204) (hj : (env rc).json = some v) :
    make_request env rc = (Except.ok v, [], 1) := by
  unfold make_request
  rw [if_neg (by omega), if_neg (by omega), if_neg (by omega), if_neg (by omega),
    if_neg h204, hj]

end GraphClient


namespace GraphClient

theorem make_request_retries_then_success (env : Nat → Response) (N : Nat) :
    ∀ rc : Nat, ∀ v : JVal, rc + N ≤ MAX_RETRIES →
    (∀ i, i < N → 500 ≤ (env (rc + i)).status) →
    200 ≤ (env (rc + N)).status → (env (rc + N)).status < 400 →
    (env (rc + N)).status ≠ 204 → (env (rc + N)).json = some v →
    make_request env rc =
      (Except.ok v,
       (List.range N).map (fun i => INITIAL_RETRY_DELAY * 2 ^ (rc + i)), N + 1) := by
  induction N with
  | zero =>
    intro rc v _ _ h2 h4 h204 hj
    simp only [Nat.add_zero] at h2 h4 h204 hj
    simpa using make_request_success env rc v h2 h4 h204 hj
  | succ N ih =>
    intro rc v hle herr h2 h4 h204 hj
    have h5 : 500 ≤ (env rc).status := by simpa using herr 0 (by omega)
    have hrc : rc < MAX_RETRIES := by omega
    have hshift : ∀ i, rc + 1 + i = rc + (i + 1) := by omega
    have hrec := ih (rc + 1) v (by omega)
      (fun i hi => by rw [hshift i]; exact herr (i + 1) (by omega))
      (by rw [hshift N]; exact h2) (by rw [hshift N]; exact h4)
      (by rw [hshift N]; exact h204) (by rw [hshift N]; exact hj)
    rw [make_request_5xx_retry env rc h5 hrc, hrec]
    refine Prod.ext rfl (Prod.ext ?_ rfl)
    show INITIAL_RETRY_DELAY * 2 ^ rc
        :: (List.range N).map (fun i => INITIAL_RETRY_DELAY * 2 ^ (rc + 1 + i))
      = (List.range (N + 1)).map (fun i => INITIAL_RETRY_DELAY * 2 ^ (rc + i))
    rw [List.range_succ_eq_map, List.map_cons, List.map_map]
    refine congrArg₂ _ (by simp) ?_
    apply List.map_congr_left
    intro i _
    simp [Function.comp, hshift i]

theorem make_request_all_5xx (env : Nat → Response) (k : Nat) :
    ∀ rc : Nat, rc + k = MAX_RETRIES →
    (∀ i, i ≤ k → 500 ≤ (env (rc + i)).status) →
    make_request env rc =
      (Except.error (GraphError.serverError (env (rc + k)).text),
       (List.range k).map (fun i => INITIAL_RETRY_DELAY * 2 ^ (rc + i)), k + 1) := by
  induction k with
  | zero =>
    intro rc hk herr
    have h5 : 500 ≤ (env rc).status := by simpa using herr 0 (by omega)
    simpa using make_request_5xx_exhausted env rc h5 (by omega)
  | succ k ih =>
    intro rc hk herr
    have h5 : 500 ≤ (env rc).status := by simpa using herr 0 (by omega)
    have hrc : rc < MAX_RETRIES := by omega
    have hshift : ∀ i, rc + 1 + i = rc + (i + 1) := by omega
    have hrec := ih (rc + 1) (by omega)
      (fun i hi => by rw [hshift i]; exact herr (i + 1) (by omega))
    rw [make_request_5xx_retry env rc h5 hrc, hrec]
    refine Prod.ext ?_ (Prod.ext ?_ rfl)
    · show Except.error (GraphError.serverError (env (rc + 1 + k)).text)
        = Except.error (GraphError.serverError (env (rc + (k + 1))).text)
      rw [hshift k]
    · show INITIAL_RETRY_DELAY * 2 ^ rc
          :: (List.range k).map (fun i => INITIAL_RETRY_DELAY * 2 ^ (rc + 1 + i))
        = (List.range (k + 1)).map (fun i => INITIAL_RETRY_DELAY * 2 ^ (rc + i))
      rw [List.range_succ_eq_map, List.map_cons, List.map_map]
      refine congrArg₂ _ (by simp) ?_
      apply List.map_congr_left
      intro i _
      simp [Function.comp, hshift i]

end GraphClient


/-- C1: if the first N responses are server errors (HTTP >= 500) with
N < max retries and the next response is a success, `make_request` returns
the success result, sleeping between attempts with delays
`INITIAL_RETRY_DELAY * 2 ^ attempt` = 1, 2, 4, ... time units; if every
response is a server error, it performs exactly MAX_RETRIES + 1 = 4 total
attempts and then fails with the server-error exception. -/
theorem executor_retry_backoff (env : Nat → Response) (N : Nat) (v : JVal) :
    (N < GraphClient.MAX_RETRIES →
      (∀ i, i < N → 500 ≤ (env i).status) →
      200 ≤ (env N).status → (env N).status < 400 → (env N).status ≠ 204 →
      (env N).json = some v →
      GraphClient.make_request env 0 =
        (Except.ok v,
         (List.range N).map (fun i => GraphClient.INITIAL_RETRY_DELAY * 2 ^ i), N + 1)) ∧
    ((∀ i, i ≤ GraphClient.MAX_RETRIES → 500 ≤ (env i).status) →
      GraphClient.make_request env 0 =
        (Except.error (GraphError.serverError (env GraphClient.MAX_RETRIES).text),
         [1, 2, 4], GraphClient.MAX_RETRIES + 1)) := by
  constructor
  · intro hN herr h2 h4 h204 hj
    have h := GraphClient.make_request_retries_then_success env N 0 v (by omega)
      (by simpa using herr) (by simpa using h2) (by simpa using h4)
      (by simpa using h204) (by simpa using hj)
    simpa using h
  · intro herr
    have h := GraphClient.make_request_all_5xx env GraphClient.MAX_RETRIES 0 (by omega)
      (by simpa using herr)
    rw [h]
    refine Prod.ext (by simp) (Prod.ext ?_ rfl)
    show (List.range GraphClient.MAX_RETRIES).map
        (fun i => GraphClient.INITIAL_RETRY_DELAY * 2 ^ (0 + i)) = [1, 2, 4]
    decide

/-- Witness for C1: two server errors then a success returns the success
JSON after sleeps [1, 2] and 3 attempts; a permanently failing server gives
the server-error exception after sleeps [1, 2, 4] and 4 attempts. -/
theorem executor_retry_backoff_witness :
    GraphClient.make_request envRecover 0 =
      (Except.ok (JVal.obj [("id", JVal.str "m1")]),
       (List.range 2).map (fun i => GraphClient.INITIAL_RETRY_DELAY * 2 ^ i), 2 + 1) ∧
    GraphClient.make_request envDown 0 =
      (Except.error (GraphError.serverError (envDown GraphClient.MAX_RETRIES).text),
       [1, 2, 4], GraphClient.MAX_RETRIES + 1) :=
  ⟨(executor_retry_backoff envRecover 2 (JVal.obj [("id", JVal.str "m1")])).1
      (by decide) (by decide) (by decide) (by decide) (by decide) rfl,
   (executor_retry_backoff envDown 0 JVal.null).2 (by decide)⟩

/-- C2: a 401 response makes `make_request` fail immediately with the
token-expired exception, and a 429 response makes it fail immediately with
the rate-limited exception carrying the advertised retry-after duration; in
both cases there is no sleep and the attempt count stays at 1. -/
theorem executor_401_429_immediate (env : Nat → Response) :
    ((env 0).status = 401 →
      GraphClient.make_request env 0 = (Except.error GraphError.tokenExpired, [], 1)) ∧
    (∀ (s : String) (n : Int), (env 0).status = 429 →
      headerGet (env 0).headers "Retry-After" = some s → parsePyInt s = some n →
      GraphClient.make_request env 0 =
        (Except.error (GraphError.rateLimited n), [], 1)) := by
  constructor
  · intro h
    exact GraphClient.make_request_401 env 0 h
  · intro s n h hh hp
    rw [GraphClient.make_request_429 env 0 h]
    simp [hh, hp]

/-- Witness for C2 at a constant-401 network and a constant-429 network
advertising Retry-After 120. -/
theorem executor_401_429_immediate_witness :
    GraphClient.make_request env401 0 = (Except.error GraphError.tokenExpired, [], 1) ∧
    GraphClient.make_request env429 0 =
      (Except.error (GraphError.rateLimited 120), [], 1) :=
  ⟨(executor_401_429_immediate env401).1 rfl,
   (executor_401_429_immediate env429).2 "120" 120 rfl (by decide) (by decide)⟩

/-- C10: a 429 response carrying no Retry-After header fails with the
rate-limited exception reporting the default retry-after of 60 seconds. -/
theorem executor_429_default_retry_after (env : Nat → Response)
    (h : (env 0).status = 429)
    (hh : headerGet (env 0).headers "Retry-After" = none) :
    GraphClient.make_request env 0 =
      (Except.error (GraphError.rateLimited 60), [], 1) := by
  rw [GraphClient.make_request_429 env 0 h]
  simp [hh]

/-- Witness for C10 at a constant-429 network with no Retry-After header. -/
theorem executor_429_default_retry_after_witness :
    GraphClient.make_request env429bare 0 =
      (Except.error (GraphError.rateLimited 60), [], 1) :=
  executor_429_default_retry_after env429bare rfl (by decide)

theorem get_tokens_after_store (st : TokenStorage) (u : String) (T : TokenDict)
    (t : Nat) :
    (((st.store_tokens u T t).1).get_tokens u).1 =
      some (dinsert "stored_at" (JVal.str (isoformat t)) T) := by
  simp [TokenStorage.store_tokens, TokenStorage.get_tokens, dlookup_dinsert_self,
    decryptLoads]

theorem is_token_expired_stored (st : TokenStorage) (u : String) (T : TokenDict)
    (t : Nat) (d : Int) (now : Nat)
    (hexp : dlookup T "expires_in" = some (JVal.num d)) :
    (((st.store_tokens u T t).1).is_token_expired u now).1 =
      some (decide ((t : Int) + d ≤ (now : Int))) := by
  simp [TokenStorage.is_token_expired, get_tokens_after_store, dlookup_dinsert_self,
    dlookup_dinsert_ne "stored_at" "expires_in" (JVal.str (isoformat t)) T (by decide),
    hexp, fromisoformat_isoformat]

/-- C3: after `store_code_verifier(state, verifier)`, the first
`get_code_verifier(state)` returns the verifier and removes the entry, so a
second call for the same state returns `none`; `get_code_verifier` on an
unknown state returns `none`. -/
theorem verifier_single_use (st : TokenStorage) (state verifier : String) :
    ((st.store_code_verifier state verifier).get_code_verifier state).1 = some verifier ∧
    ((((st.store_code_verifier state verifier).get_code_verifier state).2).get_code_verifier
        state).1 = none ∧
    (dlookup st.verifiers state = none → (st.get_code_verifier state).1 = none) := by
  refine ⟨?_, ?_, fun h => ?_⟩
  · simp [TokenStorage.store_code_verifier, TokenStorage.get_code_verifier,
      dlookup_dinsert_self]
  · simp [TokenStorage.store_code_verifier, TokenStorage.get_code_verifier,
      dlookup_derase_self]
  · simp [TokenStorage.get_code_verifier, h]

/-- Witness for C3 on the empty storage with a concrete state and verifier. -/
theorem verifier_single_use_witness :
    ((emptyStorage.store_code_verifier "s1" "v1").get_code_verifier "s1").1 = some "v1" ∧
    ((((emptyStorage.store_code_verifier "s1" "v1").get_code_verifier "s1").2).get_code_verifier
        "s1").1 = none ∧
    (emptyStorage.get_code_verifier "s1").1 = none :=
  ⟨(verifier_single_use emptyStorage "s1" "v1").1,
   (verifier_single_use emptyStorage "s1" "v1").2.1,
   (verifier_single_use emptyStorage "s1" "v1").2.2 rfl⟩

/-- C4: for a record stored with `expires_in = d` at time t,
`is_token_expired` at time t2 is false when t2 < t + d and true when
t2 >= t + d (expiry is evaluated against the stamp recorded at storage
time); when no record exists for the user it is true. -/
theorem token_expiry_semantics (st : TokenStorage) (u : String) (T : TokenDict)
    (t : Nat) (d : Int) (now : Nat) :
    (dlookup T "expires_in" = some (JVal.num d) → (now : Int) < (t : Int) + d →
      (((st.store_tokens u T t).1).is_token_expired u now).1 = some false) ∧
    (dlookup T "expires_in" = some (JVal.num d) → (t : Int) + d ≤ (now : Int) →
      (((st.store_tokens u T t).1).is_token_expired u now).1 = some true) ∧
    (dlookup st.tokens u = none → (st.is_token_expired u now).1 = some true) := by
  refine ⟨fun hexp hlt => ?_, fun hexp hle => ?_, fun h => ?_⟩
  · rw [is_token_expired_stored st u T t d now hexp]
    simp only [Option.some.injEq, decide_eq_false_iff_not]
    omega
  · rw [is_token_expired_stored st u T t d now hexp]
    simp only [Option.some.injEq, decide_eq_true_eq]
    exact hle
  · simp [TokenStorage.is_token_expired, TokenStorage.get_tokens, h]

/-- Witness for C4: a token stored at time 100 with expires_in 3600 is not
expired at time 200 and expired at time 3700; an absent user is expired. -/
theorem token_expiry_semantics_witness :
    ((((emptyStorage.store_tokens "alice" sampleTokens 100).1).is_token_expired
        "alice" 200).1 = some false) ∧
    ((((emptyStorage.store_tokens "alice" sampleTokens 100).1).is_token_expired
        "alice" 3700).1 = some true) ∧
    ((emptyStorage.is_token_expired "alice" 0).1 = some true) :=
  ⟨(token_expiry_semantics emptyStorage "alice" sampleTokens 100 3600 200).1
      rfl (by decide),
   (token_expiry_semantics emptyStorage "alice" sampleTokens 100 3600 3700).2.1
      rfl (by decide),
   (token_expiry_semantics emptyStorage "alice" sampleTokens 100 3600 0).2.2 rfl⟩

/-- C5 (amended): `store_tokens(u, T)` followed by `get_tokens(u)` returns T
with the creation-timestamp field `stored_at` inserted — an added field
whenever T does not already carry a `stored_at` key, and an overwrite of
T's own value when it does. -/
theorem store_get_roundtrip (st : TokenStorage) (u : String) (T : TokenDict) (t : Nat) :
    ((((st.store_tokens u T t).1).get_tokens u).1 =
      some (dinsert "stored_at" (JVal.str (isoformat t)) T)) ∧
    (dlookup T "stored_at" = none →
      (((st.store_tokens u T t).1).get_tokens u).1 =
        some (T ++ [("stored_at", JVal.str (isoformat t))])) := by
  refine ⟨get_tokens_after_store st u T t, fun h => ?_⟩
  rw [get_tokens_after_store st u T t, dinsert_eq_append _ _ _ h]

/-- Witness for C5 (amended) on a dict without a stored_at key. -/
theorem store_get_roundtrip_witness :
    ((((emptyStorage.store_tokens "alice" sampleTokens 100).1).get_tokens "alice").1 =
      some (dinsert "stored_at" (JVal.str (isoformat 100)) sampleTokens)) ∧
    ((((emptyStorage.store_tokens "alice" sampleTokens 100).1).get_tokens "alice").1 =
      some (sampleTokens ++ [("stored_at", JVal.str (isoformat 100))])) :=
  ⟨(store_get_roundtrip emptyStorage "alice" sampleTokens 100).1,
   (store_get_roundtrip emptyStorage "alice" sampleTokens 100).2 rfl⟩

/-- C5 counterexample: for the dict T = {"stored_at": "x"} the record
returned by `get_tokens` after `store_tokens` is not T plus one added
creation-timestamp field — T's own "stored_at" value has been overwritten,
so no choice of added value makes the dicts agree. -/
theorem store_get_roundtrip_counterexample :
    ¬ ∃ (v : JVal) (R : TokenDict),
      (((emptyStorage.store_tokens "u" [("stored_at", JVal.str "x")] 0).1).get_tokens
          "u").1 = some R ∧
      ∀ k, dlookup R k = dlookup ([("stored_at", JVal.str "x")] ++ [("stored_at", v)]) k := by
  rintro ⟨v, R, hR, hk⟩
  rw [get_tokens_after_store] at hR
  simp only [dinsert, isoformat, if_pos rfl, Option.some.injEq] at hR
  subst hR
  have h := hk "stored_at"
  simp [dlookup] at h

/-- C6: a corrupted ciphertext makes `get_tokens` return `none` (no raise —
the function is total into an Option) and evicts the entry, so a second
`get_tokens` on the resulting storage also returns `none`. -/
theorem corrupt_ciphertext_degrades (st : TokenStorage) (u : String)
    (h : dlookup st.tokens u = some Ciphertext.corrupt) :
    ((st.get_tokens u).1 = none) ∧
    ((((st.get_tokens u).2).get_tokens u).1 = none) ∧
    ((st.get_tokens u).2.tokens = derase u st.tokens) := by
  refine ⟨?_, ?_, ?_⟩ <;>
    simp [TokenStorage.get_tokens, h, decryptLoads, dlookup_derase_self]

/-- Witness for C6 on a storage holding a corrupted entry for "bob". -/
theorem corrupt_ciphertext_degrades_witness :
    ((corruptStorage.get_tokens "bob").1 = none) ∧
    ((((corruptStorage.get_tokens "bob").2).get_tokens "bob").1 = none) ∧
    ((corruptStorage.get_tokens "bob").2.tokens = derase "bob" corruptStorage.tokens) :=
  ⟨(corrupt_ciphertext_degrades corruptStorage "bob" rfl).1,
   (corrupt_ciphertext_degrades corruptStorage "bob" rfl).2.1,
   (corrupt_ciphertext_degrades corruptStorage "bob" rfl).2.2⟩

/-- C9: `store_tokens` stamps the caller-supplied dict itself (the record is
not copied before stamping): after the call the caller's dict is the
stamped dict and carries the added `stored_at` timestamp key. -/
theorem store_tokens_stamps_caller_dict (st : TokenStorage) (u : String)
    (T : TokenDict) (t : Nat) :
    (st.store_tokens u T t).2 = dinsert "stored_at" (JVal.str (isoformat t)) T ∧
    dlookup (st.store_tokens u T t).2 "stored_at" = some (JVal.str (isoformat t)) :=
  ⟨rfl, by simp [TokenStorage.store_tokens, dlookup_dinsert_self]⟩

/-- C7: a supplied (truthy) draft identifier makes `send_email` send that
draft, ignoring every other field; otherwise any missing (falsy) `to`,
`subject` or `body` raises the validation `ValueError` with no request
constructed; and with all three present one compose-and-send request is
issued with the message nested under a "message" key. -/
theorem send_email_dispatch (draft_id : Option String) (to_ : Option (List String))
    (subject body : Option String) (cc : Option (List String))
    (importance : EmailImportance) (body_type : String) :
    (∀ d, draft_id = some d → d ≠ "" →
      GraphClient.send_email draft_id to_ subject body cc importance body_type =
        SendEmailResult.request ("/me/messages/" ++ d ++ "/send") none) ∧
    (truthyStr draft_id = false →
      (truthyList to_ = false ∨ truthyStr subject = false ∨ truthyStr body = false) →
      GraphClient.send_email draft_id to_ subject body cc importance body_type =
        SendEmailResult.valueError) ∧
    (truthyStr draft_id = false →
      ∀ tos s b, to_ = some tos → tos ≠ [] → subject = some s → s ≠ "" →
        body = some b → b ≠ "" →
        GraphClient.send_email draft_id to_ subject body cc importance body_type =
          SendEmailResult.request "/me/sendMail"
            (some (JVal.obj [("message",
              buildMessage tos s b cc importance body_type)]))) := by
  refine ⟨fun d hd hne => ?_, fun h1 h2 => ?_,
    fun h1 tos s b hto htos hs hsne hb hbne => ?_⟩
  · subst hd
    simp [GraphClient.send_email, truthyStr, hne]
  · rcases h2 with h | h | h <;> simp [GraphClient.send_email, h1, h]
  · subst hto hs hb
    obtain ⟨x, xs, rfl⟩ := List.exists_cons_of_ne_nil htos
    unfold GraphClient.send_email
    rw [h1]
    simp [truthyStr, truthyList, hsne, hbne]

/-- Witness for C7: sending a concrete draft; a send with only `to` set
failing validation; and a full compose-and-send. -/
theorem send_email_dispatch_witness :
    (GraphClient.send_email (some "draft1") none none none none
        EmailImportance.normal "HTML" =
      SendEmailResult.request "/me/messages/draft1/send" none) ∧
    (GraphClient.send_email none (some ["a@b.example"]) none none none
        EmailImportance.normal "HTML" = SendEmailResult.valueError) ∧
    (GraphClient.send_email none (some ["a@b.example"]) (some "hi") (some "yo") none
        EmailImportance.normal "HTML" =
      SendEmailResult.request "/me/sendMail"
        (some (JVal.obj [("message",
          buildMessage ["a@b.example"] "hi" "yo" none EmailImportance.normal "HTML")]))) :=
  ⟨(send_email_dispatch (some "draft1") none none none none
      EmailImportance.normal "HTML").1 "draft1" rfl (by decide),
   (send_email_dispatch none (some ["a@b.example"]) none none none
      EmailImportance.normal "HTML").2.1 rfl (Or.inr (Or.inl rfl)),
   (send_email_dispatch none (some ["a@b.example"]) (some "hi") (some "yo") none
      EmailImportance.normal "HTML").2.2 rfl ["a@b.example"] "hi" "yo" rfl
      (by decide) rfl (by decide) rfl (by decide)⟩

/-- C8: the page-size parameter sent by `search_emails` is min(top, 1000)
(so top = 5000 sends 1000); a supplied from-date contributes a
`receivedDateTime ge` lower-bound filter rendered by the ISO-8601 UTC
format `%Y-%m-%dT%H:%M:%SZ`; a non-empty query is wrapped in double quotes
as the `$search` parameter; and `$orderby` requests received time
descending. -/
theorem search_emails_params (query : Option String) (folder : String) (top : Int)
    (from_date : Option PyDatetime) :
    (dlookup (GraphClient.search_emails query folder top from_date).2 "$top" =
      some (JVal.num (min top 1000))) ∧
    (top = 5000 →
      dlookup (GraphClient.search_emails query folder top from_date).2 "$top" =
        some (JVal.num 1000)) ∧
    (dlookup (GraphClient.search_emails query folder top from_date).2 "$orderby" =
      some (JVal.str "receivedDateTime DESC")) ∧
    (∀ d, from_date = some d →
      dlookup (GraphClient.search_emails query folder top from_date).2 "$filter" =
        some (JVal.str ("receivedDateTime ge " ++ strftimeUTC d))) ∧
    (∀ q, query = some q → q ≠ "" →
      dlookup (GraphClient.search_emails query folder top from_date).2 "$search" =
        some (JVal.str ("\"" ++ q ++ "\""))) := by
  have htop : dlookup (GraphClient.search_emails query folder top from_date).2 "$top" =
      some (JVal.num (min top 1000)) := by
    cases from_date <;> by_cases hq : truthyStr query <;>
      simp [GraphClient.search_emails, hq, dlookup_dinsert_ne, dlookup]
  have horder : dlookup (GraphClient.search_emails query folder top from_date).2
      "$orderby" = some (JVal.str "receivedDateTime DESC") := by
    cases from_date <;> by_cases hq : truthyStr query <;>
      simp [GraphClient.search_emails, hq, dlookup_dinsert_ne, dlookup]
  refine ⟨htop, fun h5000 => ?_, horder, fun d hd => ?_, fun q hq hqne => ?_⟩
  · rw [htop, h5000]
    norm_num
  · subst hd
    have hone : String.intercalate " and " ["receivedDateTime ge " ++ strftimeUTC d] =
        "receivedDateTime ge " ++ strftimeUTC d := rfl
    by_cases hq : truthyStr query <;>
      simp [GraphClient.search_emails, hq, hone, dlookup_dinsert_ne,
        dlookup_dinsert_self]
  · subst hq
    have hqt : truthyStr (some q) = true := by simp [truthyStr, hqne]
    cases from_date <;>
      simp [GraphClient.search_emails, hqt, dlookup_dinsert_self]

/-- Witness for C8: a search with top 5000, a concrete from-date and the
query "budget report" sends capped page size 1000, the formatted date
filter, the quoted search text and the fixed ordering. -/
theorem search_emails_params_witness :
    (dlookup (GraphClient.search_emails (some "budget report") "inbox" 5000
        (some dateEx)).2 "$top" = some (JVal.num 1000)) ∧
    (dlookup (GraphClient.search_emails (some "budget report") "inbox" 5000
        (some dateEx)).2 "$orderby" = some (JVal.str "receivedDateTime DESC")) ∧
    (dlookup (GraphClient.search_emails (some "budget report") "inbox" 5000
        (some dateEx)).2 "$filter" =
      some (JVal.str "receivedDateTime ge 2024-01-15T09:30:00Z")) ∧
    (dlookup (GraphClient.search_emails (some "budget report") "inbox" 5000
        (some dateEx)).2 "$search" = some (JVal.str "\"budget report\"")) :=
  ⟨(search_emails_params (some "budget report") "inbox" 5000 (some dateEx)).2.1 rfl,
   (search_emails_params (some "budget report") "inbox" 5000 (some dateEx)).2.2.1,
   (search_emails_params (some "budget report") "inbox" 5000 (some dateEx)).2.2.2.1
      dateEx rfl,
   (search_emails_params (some "budget report") "inbox" 5000 (some dateEx)).2.2.2.2
      "budget report" rfl (by decide)⟩

end Pepper
